import Mathlib

/-!
# Verification of the `s_todo` interaction core

Shallow embedding of `src/main.rs` of the `s_todo` terminal to-do
application: the `Todo` time tracker, the `Project`/`App` data model, and
the keyboard-driven state machine of `run_app`, together with theorems
settling the frozen claims about the specification.

Conventions of the embedding:
* Rust `u64` timestamps and durations become `Nat`; the Rust expression
  `now - start` is `u64` subtraction, which in the claims below is only
  used under a `start ≤ now` hypothesis, where it agrees with truncated
  `Nat` subtraction.
* A Rust slice index expression `v[i]` that can panic is modelled by
  `Option`: the handler returns `none` exactly when the Rust code would
  index out of bounds and panic.  Bounds-checked accesses (`.get`,
  `.get_mut`, explicit `idx < len` tests) are modelled by the same checks.
* Terminal I/O, JSON persistence and rendering are outside the model:
  `save_data` is a pure observation and `load_data`'s failure branch
  provides the built-in default data.
-/

/-- `struct Todo` of `main.rs`. -/
structure Todo where
  title : String
  description : String
  completed : Bool
  start_time : Option Nat
  end_time : Option Nat
  total_duration : Nat
deriving Repr, DecidableEq

/-- `Todo::new` of `main.rs`. -/
def Todo.new (title : String) : Todo :=
  { title := title
    description := ""
    completed := false
    start_time := none
    end_time := none
    total_duration := 0 }

/-- `Todo::start_work` of `main.rs`; `now` is the sampled Unix time. -/
def Todo.start_work (now : Nat) (t : Todo) : Todo :=
  { t with start_time := some now, end_time := none }

/-- `Todo::end_work` of `main.rs`: if `start_time` is set, record `end_time`
and add the session length to `total_duration`. -/
def Todo.end_work (now : Nat) (t : Todo) : Todo :=
  match t.start_time with
  | some start =>
      { t with end_time := some now
               total_duration := t.total_duration + (now - start) }
  | none => t

/-- `Todo::is_working` of `main.rs`. -/
def Todo.is_working (t : Todo) : Bool :=
  t.start_time.isSome && t.end_time.isNone

/-- `Todo::toggle_work` of `main.rs`. -/
def Todo.toggle_work (now : Nat) (t : Todo) : Todo :=
  if t.start_time.isSome && t.end_time.isNone then
    t.end_work now
  else
    t.start_work now

/-- `Todo::format_duration` of `main.rs`, with the Rust
`match (months, days, hours, minutes, seconds)` guard cascade translated
arm by arm. -/
def Todo.format_duration (t : Todo) : String :=
  let total_seconds := t.total_duration
  if total_seconds = 0 then ""
  else
    let months := total_seconds / 2592000
    let days := (total_seconds % 2592000) / 86400
    let hours := (total_seconds % 86400) / 3600
    let minutes := (total_seconds % 3600) / 60
    let seconds := total_seconds % 60
    if months > 0 then
      if days > 0 && hours > 0 then
        toString months ++ "mo " ++ toString days ++ "d " ++ toString hours ++ "h"
      else if days > 0 then
        toString months ++ "mo " ++ toString days ++ "d"
      else if hours > 0 then
        toString months ++ "mo " ++ toString hours ++ "h"
      else
        toString months ++ "mo"
    else if days > 0 then
      if hours > 0 && minutes > 0 then
        toString days ++ "d " ++ toString hours ++ "h " ++ toString minutes ++ "m"
      else if hours > 0 then
        toString days ++ "d " ++ toString hours ++ "h"
      else if minutes > 0 then
        toString days ++ "d " ++ toString minutes ++ "m"
      else
        toString days ++ "d"
    else if hours > 0 then
      if minutes > 0 && seconds > 0 then
        toString hours ++ "h " ++ toString minutes ++ "m " ++ toString seconds ++ "s"
      else if minutes > 0 then
        toString hours ++ "h " ++ toString minutes ++ "m"
      else if seconds > 0 then
        toString hours ++ "h " ++ toString seconds ++ "s"
      else
        toString hours ++ "h"
    else if minutes > 0 then
      if seconds > 0 then
        toString minutes ++ "m " ++ toString seconds ++ "s"
      else
        toString minutes ++ "m"
    else if seconds > 0 then
      toString seconds ++ "s"
    else
      ""

/-- A todo with a given accumulated duration and no open session, used to
exercise `Todo.format_duration` on concrete totals. -/
def todoWithDuration (n : Nat) : Todo :=
  { Todo.new "t" with total_duration := n }

/-- The five unit values of the display ladder for `total` seconds, most
significant first, each paired with its suffix: the successive integer
division/remainder ladder of spec §4.1 (30-day months). -/
def unitParts (total : Nat) : List (Nat × String) :=
  [(total / 2592000, "mo"),
   ((total % 2592000) / 86400, "d"),
   ((total % 86400) / 3600, "h"),
   ((total % 3600) / 60, "m"),
   (total % 60, "s")]

/-- Render shown units as `value ++ suffix`, separated by single
spaces. -/
def joinUnits : List (Nat × String) → String
  | [] => ""
  | [u] => toString u.1 ++ u.2
  | u :: v :: rest => toString u.1 ++ u.2 ++ " " ++ joinUnits (v :: rest)

/-- The display rule of the amended C1 claim, written from its words
rather than from the code (the reference side of the refinement): an
empty string for a zero total; otherwise the most significant non-zero
unit together with whichever units among the next two smaller ranks are
non-zero, every lower unit dropped — so at most three units, minutes and
seconds never appear once months are present, and seconds never appears
once days are present. -/
def displayRule (t : Todo) : String :=
  if t.total_duration = 0 then ""
  else
    match (unitParts t.total_duration).dropWhile (fun u => u.1 = 0) with
    | [] => ""
    | lead :: rest =>
        joinUnits (lead :: (rest.take 2).filter (fun u => 0 < u.1))

/-- A todo whose last session is closed (`start_time` and `end_time` both
set), so `is_working()` is false. -/
def c6_todo : Todo :=
  { title := "t"
    description := ""
    completed := false
    start_time := some 10
    end_time := some 20
    total_duration := 10 }

/-- A todo with an open work session started at time 5 and 100 seconds
already accumulated. -/
def c7_todo : Todo :=
  { title := "w"
    description := ""
    completed := false
    start_time := some 5
    end_time := none
    total_duration := 100 }

/-- `struct Project` of `main.rs`. -/
structure Project where
  name : String
  todos : List Todo
deriving Repr, DecidableEq

/-- `enum Panel` of `main.rs`. -/
inductive Panel where
  | Projects
  | Todos
deriving Repr, DecidableEq

/-- `enum InputMode` of `main.rs`. -/
inductive InputMode where
  | Normal
  | AddingProject
  | AddingTodo
  | RenamingProject
  | RenamingTodo
deriving Repr, DecidableEq

/-- The subset of crossterm `KeyCode` values the handlers of `run_app`
distinguish. -/
inductive KeyCode where
  | char (c : Char)
  | down
  | up
  | tab
  | enter
  | backspace
  | esc
deriving Repr, DecidableEq

/-- `struct App` of `main.rs`; `project_sel` and `todo_sel` are
`project_state.selected()` and `todo_state.selected()` of the two
`ListState`s. -/
structure App where
  projects : List Project
  project_sel : Option Nat
  todo_sel : Option Nat
  active_panel : Panel
  input_mode : InputMode
  input : String
deriving Repr, DecidableEq

/-- In-place update of the element at index `i`, the shape Rust's
`v[i].field = …` / `v[i].field.push(…)` mutations take; out-of-range
indices leave the list unchanged (the callers below check the bound or
match on `l[i]?` first). -/
def listUpdate (l : List α) (i : Nat) (f : α → α) : List α :=
  match l, i with
  | [], _ => []
  | x :: xs, 0 => f x :: xs
  | x :: xs, n + 1 => x :: listUpdate xs n f

/-- The default two-project data of `App::load_data`'s fallback branch. -/
def default_projects : List Project :=
  [ { name := "工作项目", todos := [Todo.new "完成报告"] },
    { name := "个人学习", todos := [Todo.new "学习 Rust"] } ]

/-- `App::new` of `main.rs`, applied to the loaded project list. -/
def App.new (projects : List Project) : App :=
  let app : App :=
    { projects := projects
      project_sel := none
      todo_sel := none
      active_panel := Panel.Projects
      input_mode := InputMode.Normal
      input := "" }
  if !app.projects.isEmpty then
    { app with project_sel := some 0, todo_sel := some 0 }
  else
    app

/-- The startup state when no data file is readable: `App::new` over the
built-in default projects. -/
def defaultApp : App := App.new default_projects

/-- `App::get_current_project` followed by the todo projection, as in
`App::get_current_todos`: `selected().map(|i| &self.projects[i])` panics
when the selected index is out of range, hence the outer `Option`
(`none` = Rust panic); with no selection the todo list is empty. -/
def App.get_current_todos (a : App) : Option (List Todo) :=
  match a.project_sel with
  | none => some []
  | some i =>
      match a.projects[i]? with
      | none => none
      | some p => some p.todos

/-- The `KeyCode::Tab` arm of `run_app`'s `Normal` match. -/
def App.handleTab (a : App) : Option App :=
  match a.active_panel with
  | Panel.Projects =>
      match a.get_current_todos with
      | none => none
      | some todos =>
          let a' :=
            if !todos.isEmpty && a.todo_sel.isNone then
              { a with todo_sel := some 0 }
            else a
          some { a' with active_panel := Panel.Todos }
  | Panel.Todos =>
      let a' :=
        if !a.projects.isEmpty && a.project_sel.isNone then
          { a with project_sel := some 0 }
        else a
      some { a' with active_panel := Panel.Projects }

/-- The `KeyCode::Char('j') | KeyCode::Down` arm of `run_app`.  In the
`Some(i)` project branch the Rust code computes `app.projects.len() - 1`
in `usize`; with a project selected the list is nonempty in every state
the claims quantify over, so truncated `Nat` subtraction agrees. -/
def App.handleDown (a : App) : Option App :=
  match a.active_panel with
  | Panel.Projects =>
      let i :=
        match a.project_sel with
        | some i => if i ≥ a.projects.length - 1 then 0 else i + 1
        | none => 0
      some { a with project_sel := some i, todo_sel := some 0 }
  | Panel.Todos =>
      match a.get_current_todos with
      | none => none
      | some todos =>
          if !todos.isEmpty then
            let i :=
              match a.todo_sel with
              | some i => if i ≥ todos.length - 1 then 0 else i + 1
              | none => 0
            some { a with todo_sel := some i }
          else
            some a

/-- The `KeyCode::Char('k') | KeyCode::Up` arm of `run_app`. -/
def App.handleUp (a : App) : Option App :=
  match a.active_panel with
  | Panel.Projects =>
      let i :=
        match a.project_sel with
        | some i => if i = 0 then a.projects.length - 1 else i - 1
        | none => 0
      some { a with project_sel := some i, todo_sel := some 0 }
  | Panel.Todos =>
      match a.get_current_todos with
      | none => none
      | some todos =>
          if !todos.isEmpty then
            let i :=
              match a.todo_sel with
              | some i => if i = 0 then todos.length - 1 else i - 1
              | none => 0
            some { a with todo_sel := some i }
          else
            some a

/-- The `KeyCode::Char(' ')` arm of `run_app`: toggle completion of the
selected todo, ending an open work session first.  The Rust code indexes
`app.projects[project_idx].todos[todo_idx]` without a bounds check, so an
out-of-range selection is a panic (`none`). -/
def App.handleSpace (now : Nat) (a : App) : Option App :=
  if a.active_panel = Panel.Todos then
    match a.project_sel, a.todo_sel with
    | some pi, some ti =>
        match a.projects[pi]? with
        | none => none
        | some p =>
            match p.todos[ti]? with
            | none => none
            | some t =>
                let t1 := if t.is_working && !t.completed then t.end_work now else t
                let t2 := { t1 with completed := !t1.completed }
                some { a with
                  projects := listUpdate a.projects pi
                    (fun q => { q with todos := listUpdate q.todos ti (fun _ => t2) }) }
    | _, _ => some a
  else
    some a

/-- The `KeyCode::Char('t')` arm of `run_app`:
`App::toggle_current_todo_timer` via `App::get_current_todo_mut`, which
uses checked `get_mut` accesses and so never panics. -/
def App.handleTimer (now : Nat) (a : App) : App :=
  if a.active_panel = Panel.Todos then
    match a.project_sel, a.todo_sel with
    | some pi, some ti =>
        match a.projects[pi]? with
        | some p =>
            match p.todos[ti]? with
            | some t =>
                { a with
                  projects := listUpdate a.projects pi
                    (fun q => { q with todos := listUpdate q.todos ti (fun _ => t.toggle_work now) }) }
            | none => a
        | none => a
    | _, _ => a
  else
    a

/-- The `KeyCode::Char('r')` arm of `run_app`: enter a renaming mode with
the buffer seeded from the selected name/title; the Rust seeding reads
`app.projects[idx]` / `…todos[todo_idx]` unchecked (`none` = panic). -/
def App.handleRenameKey (a : App) : Option App :=
  match a.active_panel with
  | Panel.Projects =>
      match a.project_sel with
      | some idx =>
          match a.projects[idx]? with
          | none => none
          | some p =>
              some { a with input_mode := InputMode.RenamingProject, input := p.name }
      | none => some a
  | Panel.Todos =>
      match a.project_sel, a.todo_sel with
      | some pi, some ti =>
          match a.projects[pi]? with
          | none => none
          | some p =>
              match p.todos[ti]? with
              | none => none
              | some t =>
                  some { a with input_mode := InputMode.RenamingTodo, input := t.title }
      | _, _ => some a

/-- The `KeyCode::Char('d')` arm of `run_app`: remove the selected project
or todo and reindex the selection.  The project branch is fully bounds
checked; the todo branch reads `app.projects[project_idx]` unchecked
(`none` = panic) before its `todo_idx` bound test. -/
def App.handleDelete (a : App) : Option App :=
  match a.active_panel with
  | Panel.Projects =>
      match a.project_sel with
      | some idx =>
          if idx < a.projects.length then
            let projects := a.projects.eraseIdx idx
            let project_sel :=
              if projects.isEmpty then none
              else if idx ≥ projects.length then some (projects.length - 1)
              else a.project_sel
            some { a with projects := projects, project_sel := project_sel }
          else
            some a
      | none => some a
  | Panel.Todos =>
      match a.project_sel, a.todo_sel with
      | some pi, some ti =>
          match a.projects[pi]? with
          | none => none
          | some p =>
              if ti < p.todos.length then
                let newTodos := p.todos.eraseIdx ti
                let todo_sel :=
                  if newTodos.length = 0 then none
                  else if ti ≥ newTodos.length then some (newTodos.length - 1)
                  else a.todo_sel
                some { a with
                  projects := listUpdate a.projects pi (fun _ => { p with todos := newTodos })
                  todo_sel := todo_sel }
              else
                some a
      | _, _ => some a

/-- The `InputMode::Normal` match of `run_app`.  `q` and `s` only persist
(`save_data`) and leave the in-memory state unchanged. -/
def App.handleNormal (now : Nat) (key : KeyCode) (a : App) : Option App :=
  match key with
  | KeyCode.char 'q' => some a
  | KeyCode.char 's' => some a
  | KeyCode.tab => a.handleTab
  | KeyCode.char 'j' => a.handleDown
  | KeyCode.down => a.handleDown
  | KeyCode.char 'k' => a.handleUp
  | KeyCode.up => a.handleUp
  | KeyCode.char ' ' => a.handleSpace now
  | KeyCode.char 'a' =>
      some { a with
        input_mode :=
          match a.active_panel with
          | Panel.Projects => InputMode.AddingProject
          | Panel.Todos => InputMode.AddingTodo
        input := "" }
  | KeyCode.char 't' => some (a.handleTimer now)
  | KeyCode.char 'r' => a.handleRenameKey
  | KeyCode.char 'd' => a.handleDelete
  | _ => some a

/-- The `InputMode::AddingProject` match of `run_app`; no panic is
possible in this arm. -/
def App.handleAddingProject (key : KeyCode) (a : App) : App :=
  match key with
  | KeyCode.enter =>
      if !a.input.isEmpty then
        let projects := a.projects ++ [{ name := a.input, todos := [] }]
        { a with
          projects := projects
          project_sel := some (projects.length - 1)
          todo_sel := none
          input := ""
          input_mode := InputMode.Normal }
      else
        { a with input_mode := InputMode.Normal }
  | KeyCode.char c => { a with input := a.input.push c }
  | KeyCode.backspace => { a with input := a.input.dropRight 1 }
  | KeyCode.esc => { a with input_mode := InputMode.Normal }
  | _ => a

/-- The `InputMode::AddingTodo` match of `run_app`; the commit indexes
`app.projects[project_idx]` unchecked (`none` = panic). -/
def App.handleAddingTodo (key : KeyCode) (a : App) : Option App :=
  match key with
  | KeyCode.enter =>
      if !a.input.isEmpty then
        match a.project_sel with
        | some pi =>
            match a.projects[pi]? with
            | none => none
            | some p =>
                let newTodos := p.todos ++ [Todo.new a.input]
                some { a with
                  projects := listUpdate a.projects pi (fun _ => { p with todos := newTodos })
                  todo_sel := some (newTodos.length - 1)
                  input := ""
                  input_mode := InputMode.Normal }
        | none => some { a with input := "", input_mode := InputMode.Normal }
      else
        some { a with input_mode := InputMode.Normal }
  | KeyCode.char c => some { a with input := a.input.push c }
  | KeyCode.backspace => some { a with input := a.input.dropRight 1 }
  | KeyCode.esc => some { a with input_mode := InputMode.Normal }
  | _ => some a

/-- The `InputMode::RenamingProject` match of `run_app`; the commit
indexes `app.projects[idx]` unchecked (`none` = panic). -/
def App.handleRenamingProject (key : KeyCode) (a : App) : Option App :=
  match key with
  | KeyCode.enter =>
      if !a.input.isEmpty then
        match a.project_sel with
        | some idx =>
            match a.projects[idx]? with
            | none => none
            | some p =>
                some { a with
                  projects := listUpdate a.projects idx (fun _ => { p with name := a.input })
                  input := ""
                  input_mode := InputMode.Normal }
        | none => some { a with input := "", input_mode := InputMode.Normal }
      else
        some { a with input_mode := InputMode.Normal }
  | KeyCode.char c => some { a with input := a.input.push c }
  | KeyCode.backspace => some { a with input := a.input.dropRight 1 }
  | KeyCode.esc => some { a with input_mode := InputMode.Normal }
  | _ => some a

/-- The `InputMode::RenamingTodo` match of `run_app`; the commit indexes
`app.projects[project_idx].todos[todo_idx]` unchecked (`none` = panic). -/
def App.handleRenamingTodo (key : KeyCode) (a : App) : Option App :=
  match key with
  | KeyCode.enter =>
      if !a.input.isEmpty then
        match a.project_sel, a.todo_sel with
        | some pi, some ti =>
            match a.projects[pi]? with
            | none => none
            | some p =>
                match p.todos[ti]? with
                | none => none
                | some t =>
                    some { a with
                      projects := listUpdate a.projects pi
                        (fun _ => { p with todos := listUpdate p.todos ti (fun _ => { t with title := a.input }) })
                      input := ""
                      input_mode := InputMode.Normal }
        | _, _ => some { a with input := "", input_mode := InputMode.Normal }
      else
        some { a with input_mode := InputMode.Normal }
  | KeyCode.char c => some { a with input := a.input.push c }
  | KeyCode.backspace => some { a with input := a.input.dropRight 1 }
  | KeyCode.esc => some { a with input_mode := InputMode.Normal }
  | _ => some a

/-- One key press of `run_app`'s event loop: dispatch on `input_mode`.
`none` means the Rust code panics on that key. -/
def App.handle_key (now : Nat) (key : KeyCode) (a : App) : Option App :=
  match a.input_mode with
  | InputMode.Normal => a.handleNormal now key
  | InputMode.AddingProject => some (a.handleAddingProject key)
  | InputMode.AddingTodo => a.handleAddingTodo key
  | InputMode.RenamingProject => a.handleRenamingProject key
  | InputMode.RenamingTodo => a.handleRenamingTodo key

/-- Run a keystroke sequence through `App.handle_key`, stopping at the
first panic. -/
def App.run (now : Nat) (keys : List KeyCode) (a : App) : Option App :=
  match keys with
  | [] => some a
  | k :: ks =>
      match a.handle_key now k with
      | none => none
      | some a' => a'.run now ks

/-- The todos of the currently selected project, with `[]` when no valid
project is selected; the total companion of `App.get_current_todos` used
to state the selection invariant. -/
def App.currentTodos (a : App) : List Todo :=
  match a.project_sel with
  | some i =>
      match a.projects[i]? with
      | some p => p.todos
      | none => []
  | none => []

/-- The selection invariant of spec §3: `selected_project` is `none` iff
the project list is empty and otherwise in range, and `selected_todo` is
`none` iff the current project has no todos and otherwise in range. -/
def App.selOk (a : App) : Bool :=
  (match a.project_sel with
   | none => a.projects.isEmpty
   | some i => i < a.projects.length) &&
  (match a.todo_sel with
   | none => a.currentTodos.isEmpty
   | some j => j < a.currentTodos.length)

/-- Keystrokes performing "add a todo to the selected project, then delete
the selected project" from the default startup state: switch to the Todos
panel, add todo `x` to project 0, switch back, delete project 0. -/
def c2keys : List KeyCode :=
  [KeyCode.tab, KeyCode.char 'a', KeyCode.char 'x', KeyCode.enter,
   KeyCode.tab, KeyCode.char 'd']

/-- The state after `c2keys`. -/
def c2_final : App := (App.run 0 c2keys defaultApp).getD defaultApp

/-- The keystroke sequence of `c2keys` followed by `Tab` and the
toggle-complete key: the stale out-of-range todo selection reaches the
unchecked `todos[todo_idx]` index of the space handler. -/
def c3keys : List KeyCode :=
  [KeyCode.tab, KeyCode.char 'a', KeyCode.char 'x', KeyCode.enter,
   KeyCode.tab, KeyCode.char 'd', KeyCode.tab, KeyCode.char ' ']

/-- Keystrokes from the default state: create empty project `A`
(auto-selected), move up to project 1, then move down back onto `A`. -/
def c4keys : List KeyCode :=
  [KeyCode.char 'a', KeyCode.char 'A', KeyCode.enter,
   KeyCode.char 'k', KeyCode.char 'j']

/-- The state after `c4keys`. -/
def c4_final : App := (App.run 0 c4keys defaultApp).getD defaultApp

/-- Keystrokes from the default state: add a todo to project 0, then
delete project 0 (so the selected project changes by deletion). -/
def c4keysDel : List KeyCode :=
  [KeyCode.tab, KeyCode.char 'a', KeyCode.char 'y', KeyCode.enter,
   KeyCode.tab, KeyCode.char 'd']

/-- The state after `c4keysDel`. -/
def c4_finalDel : App := (App.run 0 c4keysDel defaultApp).getD defaultApp

/-- Keystrokes from the default state deleting both projects, leaving the
project list empty with no project selected. -/
def c5keys : List KeyCode := [KeyCode.char 'd', KeyCode.char 'd']

/-- The empty-project state after `c5keys`. -/
def c5_empty : App := (App.run 0 c5keys defaultApp).getD defaultApp

/-- The state after pressing down (`j`) in the Projects panel on
`c5_empty`. -/
def c5_after : App :=
  (App.handle_key 0 (KeyCode.char 'j') c5_empty).getD defaultApp

/-- A single-project state selecting `c7_todo` in the Todos panel. -/
def c7_app : App :=
  { projects := [{ name := "P", todos := [c7_todo] }]
    project_sel := some 0
    todo_sel := some 0
    active_panel := Panel.Todos
    input_mode := InputMode.Normal
    input := "" }

/-- A three-project state with the middle project selected in the
Projects panel, whose selected project holds two todos. -/
def c8_app : App :=
  { projects :=
      [ { name := "A", todos := [] },
        { name := "B", todos := [Todo.new "b0", Todo.new "b1"] },
        { name := "C", todos := [] } ]
    project_sel := some 1
    todo_sel := some 1
    active_panel := Panel.Projects
    input_mode := InputMode.Normal
    input := "" }

/-- The same state with the Todos panel active. -/
def c8_appTodos : App := { c8_app with active_panel := Panel.Todos }

/-- The state reached from an empty data file by `Tab`, `a`, `x`: mode
`AddingTodo` with a non-empty buffer and no project selected. -/
def c9_app : App :=
  { projects := []
    project_sel := none
    todo_sel := none
    active_panel := Panel.Todos
    input_mode := InputMode.AddingTodo
    input := "x" }

/-- An `AddingProject` state with buffer `"np"` over the default data. -/
def c9w_app : App :=
  { defaultApp with input_mode := InputMode.AddingProject, input := "np" }

/-- A two-project state selecting todo 1 of project 0 in `RenamingTodo`
mode with buffer `"renamed"`. -/
def c10_app : App :=
  { projects :=
      [ { name := "P0", todos := [Todo.new "t0", c7_todo] },
        { name := "P1", todos := [Todo.new "t2"] } ]
    project_sel := some 0
    todo_sel := some 1
    active_panel := Panel.Todos
    input_mode := InputMode.RenamingTodo
    input := "renamed" }

/-- C1, counterexample.  The claim predicts `"1h 1m"` for 3665 seconds and
`"1mo 1d"` for 2700000 seconds and says minutes never appear once days are
present; `format_duration` actually keeps a third unit: `"1h 1m 5s"`,
`"1mo 1d 6h"`, and `"1d 1h 1m"` for 90060 seconds. -/
theorem c1_counterexample :
    (todoWithDuration 3665).format_duration = "1h 1m 5s" ∧
    (todoWithDuration 3665).format_duration ≠ "1h 1m" ∧
    (todoWithDuration 2700000).format_duration = "1mo 1d 6h" ∧
    (todoWithDuration 2700000).format_duration ≠ "1mo 1d" ∧
    (todoWithDuration 90060).format_duration = "1d 1h 1m" := by
  refine ⟨by decide, by decide, by decide, by decide, by decide⟩

/-- Splitting the `"mo "` literal of the code's format strings. -/
theorem mo_space_append (x : String) : "mo " ++ x = "mo" ++ (" " ++ x) :=
  String.append_assoc "mo" " " x

/-- Splitting the `"d "` literal of the code's format strings. -/
theorem d_space_append (x : String) : "d " ++ x = "d" ++ (" " ++ x) :=
  String.append_assoc "d" " " x

/-- Splitting the `"h "` literal of the code's format strings. -/
theorem h_space_append (x : String) : "h " ++ x = "h" ++ (" " ++ x) :=
  String.append_assoc "h" " " x

/-- Splitting the `"m "` literal of the code's format strings. -/
theorem m_space_append (x : String) : "m " ++ x = "m" ++ (" " ++ x) :=
  String.append_assoc "m" " " x

/-- For every todo, the code's `format_duration` implements the
`displayRule` reference exactly, by case analysis on which of the five
ladder units are zero. -/
theorem format_duration_eq_displayRule (t : Todo) :
    t.format_duration = displayRule t := by
  by_cases h0 : t.total_duration = 0
  · simp [Todo.format_duration, displayRule, h0]
  · by_cases cm : t.total_duration / 2592000 = 0
    · by_cases cd : t.total_duration % 2592000 / 86400 = 0
      · by_cases ch : t.total_duration % 86400 / 3600 = 0
        · by_cases cmi : t.total_duration % 3600 / 60 = 0
          · by_cases cs : t.total_duration % 60 = 0
            · simp [Todo.format_duration, displayRule, unitParts, joinUnits,
                List.dropWhile, List.filter, h0, cm, cd, ch, cmi, cs]
            · simp [Todo.format_duration, displayRule, unitParts, joinUnits,
                List.dropWhile, List.filter, h0, cm, cd, ch, cmi, cs,
                Nat.pos_of_ne_zero cs]
          · by_cases cs : t.total_duration % 60 = 0
            · simp [Todo.format_duration, displayRule, unitParts, joinUnits,
                List.dropWhile, List.filter, h0, cm, cd, ch, cmi, cs,
                Nat.pos_of_ne_zero cmi]
            · simp [Todo.format_duration, displayRule, unitParts, joinUnits,
                List.dropWhile, List.filter, h0, cm, cd, ch, cmi, cs,
                Nat.pos_of_ne_zero cmi, Nat.pos_of_ne_zero cs,
                String.append_assoc, m_space_append]
        · by_cases cmi : t.total_duration % 3600 / 60 = 0
          · by_cases cs : t.total_duration % 60 = 0
            · simp [Todo.format_duration, displayRule, unitParts, joinUnits,
                List.dropWhile, List.filter, h0, cm, cd, ch, cmi, cs,
                Nat.pos_of_ne_zero ch]
            · simp [Todo.format_duration, displayRule, unitParts, joinUnits,
                List.dropWhile, List.filter, h0, cm, cd, ch, cmi, cs,
                Nat.pos_of_ne_zero ch, Nat.pos_of_ne_zero cs,
                String.append_assoc, h_space_append]
          · by_cases cs : t.total_duration % 60 = 0
            · simp [Todo.format_duration, displayRule, unitParts, joinUnits,
                List.dropWhile, List.filter, h0, cm, cd, ch, cmi, cs,
                Nat.pos_of_ne_zero ch, Nat.pos_of_ne_zero cmi,
                String.append_assoc, h_space_append]
            · simp [Todo.format_duration, displayRule, unitParts, joinUnits,
                List.dropWhile, List.filter, h0, cm, cd, ch, cmi, cs,
                Nat.pos_of_ne_zero ch, Nat.pos_of_ne_zero cmi, Nat.pos_of_ne_zero cs,
                String.append_assoc, h_space_append, m_space_append]
      · by_cases ch : t.total_duration % 86400 / 3600 = 0
        · by_cases cmi : t.total_duration % 3600 / 60 = 0
          · simp [Todo.format_duration, displayRule, unitParts, joinUnits,
              List.dropWhile, List.filter, h0, cm, cd, ch, cmi,
              Nat.pos_of_ne_zero cd]
          · simp [Todo.format_duration, displayRule, unitParts, joinUnits,
              List.dropWhile, List.filter, h0, cm, cd, ch, cmi,
              Nat.pos_of_ne_zero cd, Nat.pos_of_ne_zero cmi,
              String.append_assoc, d_space_append]
        · by_cases cmi : t.total_duration % 3600 / 60 = 0
          · simp [Todo.format_duration, displayRule, unitParts, joinUnits,
              List.dropWhile, List.filter, h0, cm, cd, ch, cmi,
              Nat.pos_of_ne_zero cd, Nat.pos_of_ne_zero ch,
              String.append_assoc, d_space_append]
          · simp [Todo.format_duration, displayRule, unitParts, joinUnits,
              List.dropWhile, List.filter, h0, cm, cd, ch, cmi,
              Nat.pos_of_ne_zero cd, Nat.pos_of_ne_zero ch, Nat.pos_of_ne_zero cmi,
              String.append_assoc, d_space_append, h_space_append]
    · by_cases cd : t.total_duration % 2592000 / 86400 = 0
      · by_cases ch : t.total_duration % 86400 / 3600 = 0
        · simp [Todo.format_duration, displayRule, unitParts, joinUnits,
            List.dropWhile, List.filter, h0, cm, cd, ch,
            Nat.pos_of_ne_zero cm]
        · simp [Todo.format_duration, displayRule, unitParts, joinUnits,
            List.dropWhile, List.filter, h0, cm, cd, ch,
            Nat.pos_of_ne_zero cm, Nat.pos_of_ne_zero ch,
            String.append_assoc, mo_space_append]
      · by_cases ch : t.total_duration % 86400 / 3600 = 0
        · simp [Todo.format_duration, displayRule, unitParts, joinUnits,
            List.dropWhile, List.filter, h0, cm, cd, ch,
            Nat.pos_of_ne_zero cm, Nat.pos_of_ne_zero cd,
            String.append_assoc, mo_space_append]
        · simp [Todo.format_duration, displayRule, unitParts, joinUnits,
            List.dropWhile, List.filter, h0, cm, cd, ch,
            Nat.pos_of_ne_zero cm, Nat.pos_of_ne_zero cd, Nat.pos_of_ne_zero ch,
            String.append_assoc, mo_space_append, d_space_append]

/-- C1, amended.  For every todo, `format_duration` prints the most
significant non-zero unit together with whichever of the next two smaller
units are non-zero (so up to three units) and drops everything below —
the `displayRule` reference — hence never shows minutes or seconds once
months are present nor seconds once days are present, and returns `""`
for 0: 0 → `""`, 45 → `"45s"`, 125 → `"2m 5s"`, 3665 → `"1h 1m 5s"`,
90000 → `"1d 1h"`, 90060 → `"1d 1h 1m"`, 2700000 → `"1mo 1d 6h"`,
2592059 → `"1mo"`. -/
theorem c1_amended_rule :
    (∀ t : Todo, t.format_duration = displayRule t) ∧
    (todoWithDuration 0).format_duration = "" ∧
    (todoWithDuration 45).format_duration = "45s" ∧
    (todoWithDuration 125).format_duration = "2m 5s" ∧
    (todoWithDuration 3665).format_duration = "1h 1m 5s" ∧
    (todoWithDuration 90000).format_duration = "1d 1h" ∧
    (todoWithDuration 90060).format_duration = "1d 1h 1m" ∧
    (todoWithDuration 2700000).format_duration = "1mo 1d 6h" ∧
    (todoWithDuration 2592059).format_duration = "1mo" := by
  refine ⟨format_duration_eq_displayRule, by decide, by decide, by decide,
    by decide, by decide, by decide, by decide, by decide⟩

/-- C2, code bug.  Starting from the well-formed default state, one add
and one delete break the selection invariant: deleting the selected
project never recomputes the todo selection, so `selected_todo` stays
`some 1` while the now-current project has a single todo. -/
theorem c2_invariant_violation :
    defaultApp.selOk = true ∧
    App.run 0 c2keys defaultApp = some c2_final ∧
    c2_final.todo_sel = some 1 ∧
    c2_final.currentTodos.length = 1 ∧
    c2_final.selOk = false := by
  refine ⟨by decide, rfl, by decide, by decide, by decide⟩

/-- C3, code bug.  A keystroke sequence reachable from the initial default
state drives the space handler into an out-of-bounds
`projects[project_idx].todos[todo_idx]` index, i.e. a Rust panic
(`none` in the embedding). -/
theorem c3_reachable_panic : App.run 0 c3keys defaultApp = none := by rfl

/-- C4, code bug.  Moving the project selection onto a project with no
todos sets the todo selection to `some 0` (the `j`/`k` handlers assign
`Some(0)` unconditionally), not `none` as claimed; and deleting the
selected project leaves the todo selection untouched (`some 1` here), not
reset to `some 0` for a non-empty new project. -/
theorem c4_reset_violation :
    (App.run 0 c4keys defaultApp = some c4_final ∧
      c4_final.project_sel = some 2 ∧
      c4_final.currentTodos = [] ∧
      c4_final.todo_sel = some 0) ∧
    (App.run 0 c4keysDel defaultApp = some c4_finalDel ∧
      c4_finalDel.currentTodos.length = 1 ∧
      c4_finalDel.todo_sel = some 1) := by
  refine ⟨⟨rfl, by decide, by decide, by decide⟩, ⟨rfl, by decide, by decide⟩⟩

/-- C5, code bug.  With the projects list empty, pressing down in the
Projects panel is not a no-op: the `None => 0` arm selects index 0 of the
empty list (and sets the todo selection to 0), after which the rename key
indexes `projects[0]` and panics. -/
theorem c5_empty_move_not_noop :
    App.run 0 c5keys defaultApp = some c5_empty ∧
    c5_empty.projects = [] ∧
    c5_empty.project_sel = none ∧
    App.handle_key 0 (KeyCode.char 'j') c5_empty = some c5_after ∧
    c5_after.project_sel = some 0 ∧
    c5_after.todo_sel = some 0 ∧
    App.handle_key 0 (KeyCode.char 'r') c5_after = none := by
  refine ⟨rfl, by decide, by decide, rfl, by decide, by decide, rfl⟩

/-- C6, counterexample.  `c6_todo` has `is_working() == false`, yet
`end_work` at time 30 is not a no-op: `start_time` being set, it re-adds
`30 - 10` to `total_duration` (10 → 30) and overwrites `end_time`. -/
theorem c6_counterexample :
    c6_todo.is_working = false ∧
    (c6_todo.end_work 30).total_duration = 30 ∧
    c6_todo.total_duration = 10 ∧
    (c6_todo.end_work 30).end_time = some 30 ∧
    c6_todo.end_time = some 20 := by
  refine ⟨by decide, by decide, by decide, by decide, by decide⟩

/-- C6, amended.  `end_work(now)` is a no-op exactly when `start_time` is
unset; whenever `start_time = some s` — even if a previous session is
already closed and `is_working()` is false — it sets `end_time = some now`
and, provided the clock has not gone backwards (`s ≤ now`, where the `Nat`
model agrees with the source's `u64` subtraction), adds `now - s` to
`total_duration`, leaving every other field unchanged. -/
theorem c6_amended_end_work (now : Nat) (t : Todo) :
    (t.start_time = none → t.end_work now = t) ∧
    (∀ s, t.start_time = some s → s ≤ now →
      (t.end_work now).end_time = some now ∧
      (t.end_work now).total_duration = t.total_duration + (now - s) ∧
      (t.end_work now).start_time = t.start_time ∧
      (t.end_work now).completed = t.completed ∧
      (t.end_work now).title = t.title ∧
      (t.end_work now).description = t.description) := by
  constructor
  · intro h
    simp [Todo.end_work, h]
  · intro s hs _hsn
    simp [Todo.end_work, hs]

/-- `listUpdate` preserves the length of the list. -/
theorem listUpdate_length (l : List α) (i : Nat) (f : α → α) :
    (listUpdate l i f).length = l.length := by
  induction l generalizing i with
  | nil => rfl
  | cons x xs ih =>
      cases i with
      | zero => rfl
      | succ n => simp [listUpdate, ih]

/-- Lookup of `listUpdate` at the updated index. -/
theorem listUpdate_getElem_eq (l : List α) (i : Nat) (f : α → α) :
    (listUpdate l i f)[i]? = (l[i]?).map f := by
  induction l generalizing i with
  | nil => simp [listUpdate]
  | cons x xs ih =>
      cases i with
      | zero => simp [listUpdate]
      | succ n => simpa [listUpdate] using ih n

/-- Lookup of `listUpdate` away from the updated index. -/
theorem listUpdate_getElem_ne (l : List α) (i j : Nat) (f : α → α)
    (h : j ≠ i) : (listUpdate l i f)[j]? = l[j]? := by
  induction l generalizing i j with
  | nil => rfl
  | cons x xs ih =>
      cases i with
      | zero =>
          cases j with
          | zero => exact absurd rfl h
          | succ m => simp [listUpdate]
      | succ n =>
          cases j with
          | zero => simp [listUpdate]
          | succ m => simpa [listUpdate] using ih n m (by omega)

/-- Witness for `c6_amended_end_work` at `now = 30` on `c6_todo`. -/
theorem c6_amended_end_work_witness :
    (c6_todo.end_work 30).end_time = some 30 ∧
    (c6_todo.end_work 30).total_duration = c6_todo.total_duration + (30 - 10) ∧
    (c6_todo.end_work 30).start_time = c6_todo.start_time ∧
    (c6_todo.end_work 30).completed = c6_todo.completed ∧
    (c6_todo.end_work 30).title = c6_todo.title ∧
    (c6_todo.end_work 30).description = c6_todo.description :=
  (c6_amended_end_work 30 c6_todo).2 10 rfl (by decide)

/-- C7.  Pressing the toggle-complete key (space, Todos panel) on a
selected todo that is working and not completed first ends the session and
then flips `completed`: afterwards `is_working()` is false, `completed` is
true, and `total_duration` grew by exactly `now - start_time`. -/
theorem c7_complete_stops_timer (now : Nat) (a : App) (pi ti : Nat)
    (p : Project) (t : Todo) (s : Nat)
    (hmode : a.input_mode = InputMode.Normal)
    (hpanel : a.active_panel = Panel.Todos)
    (hps : a.project_sel = some pi) (hts : a.todo_sel = some ti)
    (hp : a.projects[pi]? = some p) (ht : p.todos[ti]? = some t)
    (hw : t.is_working = true) (hc : t.completed = false)
    (hst : t.start_time = some s) (_hsn : s ≤ now) :
    ∃ a', App.handle_key now (KeyCode.char ' ') a = some a' ∧
      (a'.projects[pi]?.bind fun p' => p'.todos[ti]?) =
        some { t with
                 completed := true
                 end_time := some now
                 total_duration := t.total_duration + (now - s) } ∧
      Todo.is_working { t with
                          completed := true
                          end_time := some now
                          total_duration := t.total_duration + (now - s) } = false := by
  have hkey : App.handle_key now (KeyCode.char ' ') a = a.handleSpace now := by
    unfold App.handle_key
    rw [hmode]
    rfl
  have hstep : a.handleSpace now =
      some { a with
               projects := listUpdate a.projects pi
                 (fun q => { q with
                               todos := listUpdate q.todos ti
                                 (fun _ => { t with
                                               completed := true
                                               end_time := some now
                                               total_duration := t.total_duration + (now - s) }) }) } := by
    simp [App.handleSpace, hpanel, hps, hts, hp, ht, hw, hc, Todo.end_work, hst]
  refine ⟨_, hkey.trans hstep, ?_, ?_⟩
  · simp [listUpdate_getElem_eq, hp, ht]
  · simp [Todo.is_working]

/-- Witness for `c7_complete_stops_timer` on `c7_app` at `now = 12`. -/
theorem c7_complete_stops_timer_witness :
    ∃ a', App.handle_key 12 (KeyCode.char ' ') c7_app = some a' ∧
      (a'.projects[0]?.bind fun p' => p'.todos[0]?) =
        some { c7_todo with
                 completed := true
                 end_time := some 12
                 total_duration := c7_todo.total_duration + (12 - 5) } ∧
      Todo.is_working { c7_todo with
                          completed := true
                          end_time := some 12
                          total_duration := c7_todo.total_duration + (12 - 5) } = false :=
  c7_complete_stops_timer 12 c7_app 0 0 { name := "P", todos := [c7_todo] } c7_todo 5
    rfl rfl rfl rfl (by decide) (by decide) (by decide) (by decide) (by decide)
    (by decide)

/-- C8.  Deleting the entry at the selected index (project in the Projects
panel, todo in the Todos panel) reindexes that list's selection: `none`
when the list becomes empty, `new_length - 1` when the deleted index was
the last valid one, otherwise the index is unchanged. -/
theorem c8_reindex_after_delete (now : Nat) :
    (∀ (a : App) (idx : Nat),
      a.input_mode = InputMode.Normal →
      a.active_panel = Panel.Projects →
      a.project_sel = some idx →
      idx < a.projects.length →
      ∃ a', App.handle_key now (KeyCode.char 'd') a = some a' ∧
        a'.projects.length = a.projects.length - 1 ∧
        a'.project_sel =
          (if a.projects.length - 1 = 0 then none
           else if idx = a.projects.length - 1 then some (a.projects.length - 1 - 1)
           else some idx)) ∧
    (∀ (a : App) (pi ti : Nat) (p : Project),
      a.input_mode = InputMode.Normal →
      a.active_panel = Panel.Todos →
      a.project_sel = some pi →
      a.todo_sel = some ti →
      a.projects[pi]? = some p →
      ti < p.todos.length →
      ∃ a' p', App.handle_key now (KeyCode.char 'd') a = some a' ∧
        a'.projects[pi]? = some p' ∧
        p'.todos.length = p.todos.length - 1 ∧
        a'.todo_sel =
          (if p.todos.length - 1 = 0 then none
           else if ti = p.todos.length - 1 then some (p.todos.length - 1 - 1)
           else some ti)) := by
  constructor
  · intro a idx hmode hpanel hsel hidx
    have hkey : App.handle_key now (KeyCode.char 'd') a = a.handleDelete := by
      unfold App.handle_key
      rw [hmode]
      rfl
    have hstep : a.handleDelete = some { a with
        projects := a.projects.eraseIdx idx
        project_sel :=
          if (a.projects.eraseIdx idx).isEmpty then none
          else if idx ≥ (a.projects.eraseIdx idx).length then
            some ((a.projects.eraseIdx idx).length - 1)
          else a.project_sel } := by
      simp [App.handleDelete, hpanel, hsel, hidx]
    have hlen : (a.projects.eraseIdx idx).length = a.projects.length - 1 := by
      have := List.length_eraseIdx_add_one hidx
      omega
    have hempty : (a.projects.eraseIdx idx).isEmpty = true ↔
        a.projects.length - 1 = 0 := by
      rw [List.isEmpty_iff, ← List.length_eq_zero, hlen]
    refine ⟨_, hkey.trans hstep, by simpa using hlen, ?_⟩
    simp only [hsel, hlen]
    by_cases h0 : a.projects.length - 1 = 0
    · rw [if_pos (hempty.mpr h0), if_pos h0]
    · rw [if_neg (fun hh => h0 (hempty.mp hh)), if_neg h0]
      by_cases h1 : idx = a.projects.length - 1
      · rw [if_pos (by omega), if_pos h1]
      · rw [if_neg (by omega), if_neg h1]
  · intro a pi ti p hmode hpanel hps hts hp hti
    have hkey : App.handle_key now (KeyCode.char 'd') a = a.handleDelete := by
      unfold App.handle_key
      rw [hmode]
      rfl
    have hstep : a.handleDelete = some { a with
        projects := listUpdate a.projects pi (fun _ => { p with todos := p.todos.eraseIdx ti })
        todo_sel :=
          if (p.todos.eraseIdx ti).length = 0 then none
          else if ti ≥ (p.todos.eraseIdx ti).length then
            some ((p.todos.eraseIdx ti).length - 1)
          else a.todo_sel } := by
      simp [App.handleDelete, hpanel, hps, hts, hp, hti]
    have hlen : (p.todos.eraseIdx ti).length = p.todos.length - 1 := by
      have := List.length_eraseIdx_add_one hti
      omega
    refine ⟨_, { p with todos := p.todos.eraseIdx ti }, hkey.trans hstep,
      by simp [listUpdate_getElem_eq, hp], by simpa using hlen, ?_⟩
    simp only [hts, hlen]
    by_cases h0 : p.todos.length - 1 = 0
    · rw [if_pos h0, if_pos h0]
    · rw [if_neg h0, if_neg h0]
      by_cases h1 : ti = p.todos.length - 1
      · rw [if_pos (by omega), if_pos h1]
      · rw [if_neg (by omega), if_neg h1]

/-- Witness for `c8_reindex_after_delete`: both panels exercised on
concrete states (deleting project 1 of 3; deleting todo 1 of 2). -/
theorem c8_reindex_after_delete_witness :
    (∃ a', App.handle_key 0 (KeyCode.char 'd') c8_app = some a' ∧
      a'.projects.length = c8_app.projects.length - 1 ∧
      a'.project_sel =
        (if c8_app.projects.length - 1 = 0 then none
         else if 1 = c8_app.projects.length - 1 then some (c8_app.projects.length - 1 - 1)
         else some 1)) ∧
    (∃ a' p', App.handle_key 0 (KeyCode.char 'd') c8_appTodos = some a' ∧
      a'.projects[1]? = some p' ∧
      p'.todos.length = (List.length [Todo.new "b0", Todo.new "b1"]) - 1 ∧
      a'.todo_sel =
        (if (List.length [Todo.new "b0", Todo.new "b1"]) - 1 = 0 then none
         else if 1 = (List.length [Todo.new "b0", Todo.new "b1"]) - 1 then
           some ((List.length [Todo.new "b0", Todo.new "b1"]) - 1 - 1)
         else some 1)) :=
  ⟨(c8_reindex_after_delete 0).1 c8_app 1 rfl rfl rfl (by decide),
   (c8_reindex_after_delete 0).2 c8_appTodos 1 1
     { name := "B", todos := [Todo.new "b0", Todo.new "b1"] }
     rfl rfl rfl rfl (by decide) (by decide)⟩

/-- C9, counterexample.  In `AddingTodo` with the non-empty buffer `"x"`
but no project selected (state reachable from `App.new []`), Enter resets
the mode and buffer but creates no todo anywhere: the claim's "if the
buffer was non-empty, the commit creates the new project/todo and
auto-selects it" fails. -/
theorem c9_counterexample :
    App.run 0 [KeyCode.tab, KeyCode.char 'a', KeyCode.char 'x'] (App.new []) =
      some c9_app ∧
    c9_app.input.isEmpty = false ∧
    App.handle_key 0 KeyCode.enter c9_app =
      some { c9_app with input := "", input_mode := InputMode.Normal } ∧
    ({ c9_app with input := "", input_mode := InputMode.Normal } : App).projects = [] ∧
    ({ c9_app with input := "", input_mode := InputMode.Normal } : App).todo_sel = none := by
  refine ⟨rfl, by decide, rfl, rfl, rfl⟩

/-- C9, amended.  Enter in any text-entry state returns to `Normal` with
an empty buffer; with a non-empty buffer the commit creates the new
project/todo (or overwrites the selected name/title) and auto-selects a
newly created entity at index `length - 1`, *provided the target exists* —
in `AddingTodo` with no project selected nothing is created; with an empty
buffer the data model is unchanged. -/
theorem c9_amended_enter_commit (now : Nat) :
    (∀ a : App, a.input_mode = InputMode.AddingProject → a.input.isEmpty = false →
      ∃ a', App.handle_key now KeyCode.enter a = some a' ∧
        a'.projects = a.projects ++ [{ name := a.input, todos := [] }] ∧
        a'.project_sel = some (a'.projects.length - 1) ∧
        a'.todo_sel = none ∧
        a'.input = "" ∧ a'.input_mode = InputMode.Normal) ∧
    (∀ a : App, a.input_mode = InputMode.AddingProject → a.input.isEmpty = true →
      App.handle_key now KeyCode.enter a = some { a with input_mode := InputMode.Normal }) ∧
    (∀ (a : App) (pi : Nat) (p : Project),
      a.input_mode = InputMode.AddingTodo → a.input.isEmpty = false →
      a.project_sel = some pi → a.projects[pi]? = some p →
      ∃ a' p', App.handle_key now KeyCode.enter a = some a' ∧
        a'.projects[pi]? = some p' ∧
        p'.todos = p.todos ++ [Todo.new a.input] ∧
        a'.todo_sel = some (p'.todos.length - 1) ∧
        a'.input = "" ∧ a'.input_mode = InputMode.Normal) ∧
    (∀ a : App, a.input_mode = InputMode.AddingTodo → a.input.isEmpty = false →
      a.project_sel = none →
      App.handle_key now KeyCode.enter a =
        some { a with input := "", input_mode := InputMode.Normal }) ∧
    (∀ a : App, a.input_mode = InputMode.AddingTodo → a.input.isEmpty = true →
      App.handle_key now KeyCode.enter a = some { a with input_mode := InputMode.Normal }) ∧
    (∀ a : App, a.input_mode = InputMode.RenamingProject → a.input.isEmpty = true →
      App.handle_key now KeyCode.enter a = some { a with input_mode := InputMode.Normal }) ∧
    (∀ (a : App) (idx : Nat) (p : Project),
      a.input_mode = InputMode.RenamingProject → a.input.isEmpty = false →
      a.project_sel = some idx → a.projects[idx]? = some p →
      ∃ a', App.handle_key now KeyCode.enter a = some a' ∧
        a'.projects[idx]? = some { p with name := a.input } ∧
        a'.input = "" ∧ a'.input_mode = InputMode.Normal) ∧
    (∀ a : App, a.input_mode = InputMode.RenamingTodo → a.input.isEmpty = true →
      App.handle_key now KeyCode.enter a = some { a with input_mode := InputMode.Normal }) ∧
    (∀ (a : App) (pi ti : Nat) (p : Project) (t : Todo),
      a.input_mode = InputMode.RenamingTodo → a.input.isEmpty = false →
      a.project_sel = some pi → a.todo_sel = some ti →
      a.projects[pi]? = some p → p.todos[ti]? = some t →
      ∃ a' p', App.handle_key now KeyCode.enter a = some a' ∧
        a'.projects[pi]? = some p' ∧
        p'.todos[ti]? = some { t with title := a.input } ∧
        a'.input = "" ∧ a'.input_mode = InputMode.Normal) := by
  refine ⟨?_, ?_, ?_, ?_, ?_, ?_, ?_, ?_, ?_⟩
  · intro a hmode hin
    have hkey : App.handle_key now KeyCode.enter a =
        some (a.handleAddingProject KeyCode.enter) := by
      unfold App.handle_key
      rw [hmode]
    have hstep : a.handleAddingProject KeyCode.enter =
        { a with
            projects := a.projects ++ [({ name := a.input, todos := [] } : Project)]
            project_sel := some ((a.projects ++ [({ name := a.input, todos := [] } : Project)]).length - 1)
            todo_sel := none
            input := ""
            input_mode := InputMode.Normal } := by
      simp [App.handleAddingProject, hin]
    refine ⟨_, hkey.trans (congrArg some hstep), rfl, rfl, rfl, rfl, rfl⟩
  · intro a hmode hin
    have hkey : App.handle_key now KeyCode.enter a =
        some (a.handleAddingProject KeyCode.enter) := by
      unfold App.handle_key
      rw [hmode]
    rw [hkey]
    simp [App.handleAddingProject, hin]
  · intro a pi p hmode hin hps hp
    have hkey : App.handle_key now KeyCode.enter a = a.handleAddingTodo KeyCode.enter := by
      unfold App.handle_key
      rw [hmode]
    have hstep : a.handleAddingTodo KeyCode.enter = some { a with
        projects := listUpdate a.projects pi
          (fun _ => { p with todos := p.todos ++ [Todo.new a.input] })
        todo_sel := some ((p.todos ++ [Todo.new a.input]).length - 1)
        input := ""
        input_mode := InputMode.Normal } := by
      simp [App.handleAddingTodo, hin, hps, hp]
    refine ⟨_, { p with todos := p.todos ++ [Todo.new a.input] }, hkey.trans hstep,
      by simp [listUpdate_getElem_eq, hp], rfl, rfl, rfl, rfl⟩
  · intro a hmode hin hps
    have hkey : App.handle_key now KeyCode.enter a = a.handleAddingTodo KeyCode.enter := by
      unfold App.handle_key
      rw [hmode]
    rw [hkey]
    simp [App.handleAddingTodo, hin, hps]
  · intro a hmode hin
    have hkey : App.handle_key now KeyCode.enter a = a.handleAddingTodo KeyCode.enter := by
      unfold App.handle_key
      rw [hmode]
    rw [hkey]
    simp [App.handleAddingTodo, hin]
  · intro a hmode hin
    have hkey : App.handle_key now KeyCode.enter a = a.handleRenamingProject KeyCode.enter := by
      unfold App.handle_key
      rw [hmode]
    rw [hkey]
    simp [App.handleRenamingProject, hin]
  · intro a idx p hmode hin hsel hp
    have hkey : App.handle_key now KeyCode.enter a = a.handleRenamingProject KeyCode.enter := by
      unfold App.handle_key
      rw [hmode]
    have hstep : a.handleRenamingProject KeyCode.enter = some { a with
        projects := listUpdate a.projects idx (fun _ => { p with name := a.input })
        input := ""
        input_mode := InputMode.Normal } := by
      simp [App.handleRenamingProject, hin, hsel, hp]
    refine ⟨_, hkey.trans hstep, by simp [listUpdate_getElem_eq, hp], rfl, rfl⟩
  · intro a hmode hin
    have hkey : App.handle_key now KeyCode.enter a = a.handleRenamingTodo KeyCode.enter := by
      unfold App.handle_key
      rw [hmode]
    rw [hkey]
    simp [App.handleRenamingTodo, hin]
  · intro a pi ti p t hmode hin hps hts hp ht
    have hkey : App.handle_key now KeyCode.enter a = a.handleRenamingTodo KeyCode.enter := by
      unfold App.handle_key
      rw [hmode]
    have hstep : a.handleRenamingTodo KeyCode.enter = some { a with
        projects := listUpdate a.projects pi
          (fun _ => { p with todos := listUpdate p.todos ti (fun _ => { t with title := a.input }) })
        input := ""
        input_mode := InputMode.Normal } := by
      simp [App.handleRenamingTodo, hin, hps, hts, hp, ht]
    refine ⟨_, { p with todos := listUpdate p.todos ti (fun _ => { t with title := a.input }) },
      hkey.trans hstep, by simp [listUpdate_getElem_eq, hp],
      by simp [listUpdate_getElem_eq, ht], rfl, rfl⟩

/-- Witness for `c9_amended_enter_commit`: committing the new project
`"np"` and the no-project `AddingTodo` commit on `c9_app`. -/
theorem c9_amended_enter_commit_witness :
    (∃ a', App.handle_key 0 KeyCode.enter c9w_app = some a' ∧
      a'.projects = c9w_app.projects ++ [{ name := c9w_app.input, todos := [] }] ∧
      a'.project_sel = some (a'.projects.length - 1) ∧
      a'.todo_sel = none ∧
      a'.input = "" ∧ a'.input_mode = InputMode.Normal) ∧
    App.handle_key 0 KeyCode.enter c9_app =
      some { c9_app with input := "", input_mode := InputMode.Normal } :=
  ⟨(c9_amended_enter_commit 0).1 c9w_app rfl (by decide),
   (c9_amended_enter_commit 0).2.2.2.1 c9_app rfl (by decide) rfl⟩

/-- C10.  Committing a rename (Enter, non-empty buffer) overwrites only
the selected entity's `name`/`title`: every other project, every other
todo of the renamed project's list, all remaining fields of the renamed
todo (captured by the `{ t with title := … }` record), both selection
indices, and the active panel are unchanged. -/
theorem c10_rename_frame (now : Nat) :
    (∀ (a : App) (idx : Nat) (p : Project),
      a.input_mode = InputMode.RenamingProject → a.input.isEmpty = false →
      a.project_sel = some idx → a.projects[idx]? = some p →
      ∃ a', App.handle_key now KeyCode.enter a = some a' ∧
        a'.project_sel = a.project_sel ∧
        a'.todo_sel = a.todo_sel ∧
        a'.active_panel = a.active_panel ∧
        a'.projects.length = a.projects.length ∧
        (∀ j, j ≠ idx → a'.projects[j]? = a.projects[j]?) ∧
        a'.projects[idx]? = some { p with name := a.input }) ∧
    (∀ (a : App) (pi ti : Nat) (p : Project) (t : Todo),
      a.input_mode = InputMode.RenamingTodo → a.input.isEmpty = false →
      a.project_sel = some pi → a.todo_sel = some ti →
      a.projects[pi]? = some p → p.todos[ti]? = some t →
      ∃ a' p', App.handle_key now KeyCode.enter a = some a' ∧
        a'.project_sel = a.project_sel ∧
        a'.todo_sel = a.todo_sel ∧
        a'.active_panel = a.active_panel ∧
        a'.projects.length = a.projects.length ∧
        (∀ j, j ≠ pi → a'.projects[j]? = a.projects[j]?) ∧
        a'.projects[pi]? = some p' ∧
        p'.name = p.name ∧
        p'.todos.length = p.todos.length ∧
        (∀ k, k ≠ ti → p'.todos[k]? = p.todos[k]?) ∧
        p'.todos[ti]? = some { t with title := a.input }) := by
  constructor
  · intro a idx p hmode hin hsel hp
    have hkey : App.handle_key now KeyCode.enter a = a.handleRenamingProject KeyCode.enter := by
      unfold App.handle_key
      rw [hmode]
    have hstep : a.handleRenamingProject KeyCode.enter = some { a with
        projects := listUpdate a.projects idx (fun _ => { p with name := a.input })
        input := ""
        input_mode := InputMode.Normal } := by
      simp [App.handleRenamingProject, hin, hsel, hp]
    refine ⟨_, hkey.trans hstep, rfl, rfl, rfl, by simp [listUpdate_length],
      ?_, by simp [listUpdate_getElem_eq, hp]⟩
    intro j hj
    simpa using listUpdate_getElem_ne a.projects idx j _ hj
  · intro a pi ti p t hmode hin hps hts hp ht
    have hkey : App.handle_key now KeyCode.enter a = a.handleRenamingTodo KeyCode.enter := by
      unfold App.handle_key
      rw [hmode]
    have hstep : a.handleRenamingTodo KeyCode.enter = some { a with
        projects := listUpdate a.projects pi
          (fun _ => { p with todos := listUpdate p.todos ti (fun _ => { t with title := a.input }) })
        input := ""
        input_mode := InputMode.Normal } := by
      simp [App.handleRenamingTodo, hin, hps, hts, hp, ht]
    refine ⟨_, { p with todos := listUpdate p.todos ti (fun _ => { t with title := a.input }) },
      hkey.trans hstep, rfl, rfl, rfl, by simp [listUpdate_length], ?_,
      by simp [listUpdate_getElem_eq, hp], rfl, by simp [listUpdate_length], ?_,
      by simp [listUpdate_getElem_eq, ht]⟩
    · intro j hj
      simpa using listUpdate_getElem_ne a.projects pi j _ hj
    · intro k hk
      simpa using listUpdate_getElem_ne p.todos ti k _ hk

/-- Witness for `c10_rename_frame`: renaming todo 1 of project 0 in
`c10_app`. -/
theorem c10_rename_frame_witness :
    ∃ a' p', App.handle_key 0 KeyCode.enter c10_app = some a' ∧
      a'.project_sel = c10_app.project_sel ∧
      a'.todo_sel = c10_app.todo_sel ∧
      a'.active_panel = c10_app.active_panel ∧
      a'.projects.length = c10_app.projects.length ∧
      (∀ j, j ≠ 0 → a'.projects[j]? = c10_app.projects[j]?) ∧
      a'.projects[0]? = some p' ∧
      p'.name = Project.name { name := "P0", todos := [Todo.new "t0", c7_todo] } ∧
      p'.todos.length = (List.length [Todo.new "t0", c7_todo]) ∧
      (∀ k, k ≠ 1 → p'.todos[k]? = [Todo.new "t0", c7_todo][k]?) ∧
      p'.todos[1]? = some { c7_todo with title := c10_app.input } :=
  (c10_rename_frame 0).2 c10_app 0 1
    { name := "P0", todos := [Todo.new "t0", c7_todo] } c7_todo
    rfl (by decide) rfl rfl (by decide) (by decide)

